import Mathlib

/-!
Shallow embedding of the API gateway of the shopping-list microservices
repository (api-gateway/server.js): the per-target circuit breaker
(isCircuitOpen, recordFailure, resetCircuitBreaker), the proxy path
(proxyRequest), the aggregate endpoints (getDashboard, globalSearch) and
the plain client helper callService.  Timestamps are naturals standing
for milliseconds (Date.now()).  JS mutation of the breaker Map becomes
explicit state passing on an association list.
-/

namespace Gateway

/-- One circuit breaker record, as created at server.js line 139:
`{ failures: 0, isOpen: false, lastFailure: null }`. -/
structure Breaker where
  failures : Nat
  isOpen : Bool
  lastFailure : Option Nat
  deriving Repr, DecidableEq

/-- The fresh record of server.js line 139. -/
def freshBreaker : Breaker :=
  { failures := 0, isOpen := false, lastFailure := none }

/-- `this.circuitBreakers`, a Map from service name to breaker (line 14),
modelled as an association list. -/
abbrev Breakers := List (String × Breaker)

/-- `this.circuitBreakers.get(name)`. -/
def getBreaker (bs : Breakers) (name : String) : Option Breaker :=
  match bs with
  | [] => none
  | (n, b) :: rest => if n = name then some b else getBreaker rest name

/-- `this.circuitBreakers.set(name, b)` (insert-or-overwrite). -/
def setBreaker (bs : Breakers) (name : String) (b : Breaker) : Breakers :=
  match bs with
  | [] => [(name, b)]
  | (n, b0) :: rest =>
      if n = name then (name, b) :: rest else (n, b0) :: setBreaker rest name b

/-- The per-record effect of `recordFailure` (server.js lines 142-147):
increment `failures`, stamp `lastFailure`, open the breaker once
`failures >= 3`. -/
def bumpFailure (b : Breaker) (now : Nat) : Breaker :=
  let b1 : Breaker := { b with failures := b.failures + 1, lastFailure := some now }
  if 3 ≤ b1.failures then { b1 with isOpen := true } else b1

/-- `recordFailure(serviceName)` (server.js lines 136-148): fetch the
breaker, creating the fresh record when absent, then bump it. -/
def recordFailure (bs : Breakers) (name : String) (now : Nat) : Breakers :=
  setBreaker bs name (bumpFailure ((getBreaker bs name).getD freshBreaker) now)

/-- `resetCircuitBreaker(serviceName)` (server.js lines 150-156): when a
breaker exists, zero its failure count and close it (called on every
proxy success). -/
def resetCircuitBreaker (bs : Breakers) (name : String) : Breakers :=
  match getBreaker bs name with
  | none => bs
  | some b => setBreaker bs name { b with failures := 0, isOpen := false }

/-- `isCircuitOpen(serviceName)` (server.js lines 124-134).  Returns the
boolean the JS function returns together with the breaker table after the
call (the function mutates `breaker.isOpen` on the half-open transition).
`Date.now() - breaker.lastFailure` with a null `lastFailure` is `now - 0`
in JS; `Option.getD 0` matches that. -/
def isCircuitOpen (bs : Breakers) (name : String) (now : Nat) : Bool × Breakers :=
  match getBreaker bs name with
  | none => (false, bs)
  | some b =>
      if b.isOpen = true ∧ 30000 < now - b.lastFailure.getD 0 then
        (false, setBreaker bs name { b with isOpen := false })
      else
        (b.isOpen, bs)

-- Basic lookup lemmas for the breaker table.

theorem getBreaker_setBreaker_self (bs : Breakers) (name : String) (b : Breaker) :
    getBreaker (setBreaker bs name b) name = some b := by
  induction bs with
  | nil => simp [getBreaker, setBreaker]
  | cons p rest ih =>
      obtain ⟨n, b0⟩ := p
      by_cases h : n = name
      · simp [getBreaker, setBreaker, h]
      · simp [getBreaker, setBreaker, h, ih]

theorem getBreaker_setBreaker_other (bs : Breakers) (name m : String) (b : Breaker)
    (h : m ≠ name) : getBreaker (setBreaker bs name b) m = getBreaker bs m := by
  induction bs with
  | nil =>
      simp only [getBreaker, setBreaker]
      rw [if_neg (fun hn => h hn.symm)]
  | cons p rest ih =>
      obtain ⟨n, b0⟩ := p
      by_cases hn : n = name
      · subst hn
        have hnm : ¬ n = m := fun hm => h hm.symm
        simp [getBreaker, setBreaker, hnm]
      · simp only [setBreaker, if_neg hn, getBreaker]
        by_cases hm : n = m
        · simp [hm]
        · simp [hm, ih]

theorem getBreaker_recordFailure (bs : Breakers) (name : String) (now : Nat) :
    getBreaker (recordFailure bs name now) name =
      some (bumpFailure ((getBreaker bs name).getD freshBreaker) now) := by
  simp [recordFailure, getBreaker_setBreaker_self]

theorem bumpFailure_failures (b : Breaker) (now : Nat) :
    (bumpFailure b now).failures = b.failures + 1 := by
  simp only [bumpFailure]
  by_cases h : 3 ≤ b.failures + 1 <;> simp [h]

theorem bumpFailure_lastFailure (b : Breaker) (now : Nat) :
    (bumpFailure b now).lastFailure = some now := by
  simp only [bumpFailure]
  by_cases h : 3 ≤ b.failures + 1 <;> simp [h]

theorem bumpFailure_isOpen_of_threshold (b : Breaker) (now : Nat)
    (h : 3 ≤ b.failures + 1) : (bumpFailure b now).isOpen = true := by
  simp [bumpFailure, h]

/-- A JSON response body, modelled with the fields the gateway reads and
writes: the `success` flag, the `message` field (read by the proxy error
path, line 68), the `data` array (read by the aggregate endpoints, lines
92-93 and 110) and `extra`, standing for any further fields a downstream
body may carry. -/
structure Body where
  success : Bool
  message : String
  data : List String
  extra : Option String
  deriving Repr, DecidableEq

/-- What an awaited axios call does: resolve with a 2xx response, reject
with an HTTP error response attached (`error.response` present), or
reject with a transport error (`error.response` absent). -/
inductive AxiosResult where
  | ok (status : Nat) (body : Body)
  | httpError (status : Nat) (body : Body)
  | transportError
  deriving Repr, DecidableEq

/-- Modelled from the spec: `serviceRegistry` (shared/serviceRegistry)
is not among the source files.  Spec section 4.1: `discover(name)` fails
with `NotRegistered` if `name` was never registered, and otherwise
returns the record with its `url`; it does not fail merely because the
service is unhealthy.  The registry is a map from name to url; `none`
stands for the thrown `NotRegistered`. -/
abbrev Registry := List (String × String)

/-- Modelled from the spec: registry lookup, `none` = `NotRegistered`
thrown. -/
def discover (reg : Registry) (name : String) : Option String :=
  match reg with
  | [] => none
  | (n, url) :: rest => if n = name then some url else discover rest name

/-- The response the gateway sends back to its caller. -/
structure GatewayResponse where
  status : Nat
  body : Body
  deriving Repr, DecidableEq

/-- The `{ success: false, message }` object the gateway builds on its
error paths (server.js lines 47, 69): no `data` array, no further
fields. -/
def errBody (msg : String) : Body :=
  { success := false, message := msg, data := [], extra := none }

instance instDecEqExceptBody : DecidableEq (Except String Body) := fun x y =>
  match x, y with
  | Except.error a, Except.error b =>
      if h : a = b then Decidable.isTrue (by rw [h])
      else Decidable.isFalse fun hc => h (by injection hc)
  | Except.error _, Except.ok _ => Decidable.isFalse fun hc => Except.noConfusion hc
  | Except.ok _, Except.error _ => Decidable.isFalse fun hc => Except.noConfusion hc
  | Except.ok a, Except.ok b =>
      if h : a = b then Decidable.isTrue (by rw [h])
      else Decidable.isFalse fun hc => h (by injection hc)

/-- Observable outcome of one `proxyRequest` handler run: the response
sent, whether registry discovery was reached, whether an outbound
network call was issued, and the breaker table afterwards. -/
structure ProxyOutcome where
  response : GatewayResponse
  discoveryAttempted : Bool
  networkCall : Bool
  breakers : Breakers
  deriving Repr, DecidableEq

/-- `proxyRequest(serviceName, serviceBasePath, req, res)` (server.js
lines 44-71).  If the breaker is open, answer 503 at once (line 47);
otherwise discover (a `NotRegistered` throw lands in the catch block with
no `error.response`, so 503 with the generic message after recording a
failure); otherwise issue the axios call: a 2xx resets the breaker and
passes status and body through (lines 63-64); an HTTP error records a
failure and answers with the downstream status and a rewrapped
`{ success: false, message }` body (lines 66-69); a transport error
records a failure and answers 503 with the generic message. -/
def proxyRequest (bs : Breakers) (reg : Registry) (serviceName : String)
    (now : Nat) (downstream : AxiosResult) : ProxyOutcome :=
  if (isCircuitOpen bs serviceName now).1 then
    { response := GatewayResponse.mk 503
        (errBody ("Serviço " ++ serviceName ++ " temporariamente indisponível")),
      discoveryAttempted := false, networkCall := false,
      breakers := (isCircuitOpen bs serviceName now).2 }
  else
    match discover reg serviceName with
    | none =>
        { response := GatewayResponse.mk 503
            (errBody ("Serviço " ++ serviceName ++ " indisponível")),
          discoveryAttempted := true, networkCall := false,
          breakers := recordFailure (isCircuitOpen bs serviceName now).2 serviceName now }
    | some _url =>
        match downstream with
        | AxiosResult.ok st b =>
            { response := GatewayResponse.mk st b,
              discoveryAttempted := true, networkCall := true,
              breakers := resetCircuitBreaker (isCircuitOpen bs serviceName now).2 serviceName }
        | AxiosResult.httpError st b =>
            { response := GatewayResponse.mk st (errBody b.message),
              discoveryAttempted := true, networkCall := true,
              breakers := recordFailure (isCircuitOpen bs serviceName now).2 serviceName now }
        | AxiosResult.transportError =>
            { response := GatewayResponse.mk 503
                (errBody ("Serviço " ++ serviceName ++ " indisponível")),
              discoveryAttempted := true, networkCall := true,
              breakers := recordFailure (isCircuitOpen bs serviceName now).2 serviceName now }

/-- The axios.get invocation `callService` would make: target url
(discovered base url ++ path) and the Authorization header, if any. -/
structure OutboundRequest where
  url : String
  authHeader : Option String
  deriving Repr, DecidableEq

/-- Observable outcome of one `callService` run: the settled result
(`ok` body or rejection reason), the outbound request issued (none when
discovery threw first), how many network calls went out, and the breaker
table afterwards. -/
structure CallOutcome where
  result : Except String Body
  request : Option OutboundRequest
  networkCalls : Nat
  breakers : Breakers
  deriving Repr, DecidableEq

/-- `callService(serviceName, path, authHeader)` (server.js lines
116-121): discover, build headers (Authorization only when a header was
given), `axios.get`, return `response.data`.  Note: no circuit-breaker
check and no `recordFailure`/`resetCircuitBreaker` — the breaker table is
passed through untouched. -/
def callService (bs : Breakers) (reg : Registry) (serviceName path : String)
    (authHeader : Option String) (downstream : AxiosResult) : CallOutcome :=
  match discover reg serviceName with
  | none =>
      { result := Except.error "NotRegistered", request := none,
        networkCalls := 0, breakers := bs }
  | some url =>
      let req : OutboundRequest := { url := url ++ path, authHeader := authHeader }
      match downstream with
      | AxiosResult.ok _st b =>
          { result := Except.ok b, request := some req, networkCalls := 1, breakers := bs }
      | AxiosResult.httpError st _b =>
          { result := Except.error ("HTTP " ++ toString st), request := some req,
            networkCalls := 1, breakers := bs }
      | AxiosResult.transportError =>
          { result := Except.error "transport", request := some req,
            networkCalls := 1, breakers := bs }

/-- Observable outcome of one `getDashboard` run. -/
structure DashboardOutcome where
  status : Nat
  success : Bool
  message : Option String
  recentLists : List String
  catalogItems : List String
  listsResult : Option (Except String Body)
  itemsResult : Option (Except String Body)
  listRequest : Option OutboundRequest
  itemRequest : Option OutboundRequest
  breakers : Breakers
  networkCalls : Nat
  deriving Repr, DecidableEq

/-- `getDashboard(req, res)` (server.js lines 81-100): 401 without an
Authorization header; otherwise two `callService` calls settled via
`Promise.allSettled` — list-service with the caller's header, item-service
without — and a 200 `{ success: true, data: { recentLists, catalogItems } }`
response where each branch falls back to `[]` when its call rejected. -/
def getDashboard (bs : Breakers) (reg : Registry) (authHeader : Option String)
    (listsDownstream itemsDownstream : AxiosResult) : DashboardOutcome :=
  match authHeader with
  | none =>
      { status := 401, success := false, message := some "Token obrigatório",
        recentLists := [], catalogItems := [], listsResult := none, itemsResult := none,
        listRequest := none, itemRequest := none, breakers := bs, networkCalls := 0 }
  | some auth =>
      let lc := callService bs reg "list-service" "/lists?limit=5" (some auth) listsDownstream
      let ic := callService lc.breakers reg "item-service" "/items?limit=5" none itemsDownstream
      { status := 200, success := true, message := none,
        recentLists := (match lc.result with | Except.ok b => b.data | Except.error _ => []),
        catalogItems := (match ic.result with | Except.ok b => b.data | Except.error _ => []),
        listsResult := some lc.result, itemsResult := some ic.result,
        listRequest := lc.request, itemRequest := ic.request,
        breakers := ic.breakers, networkCalls := lc.networkCalls + ic.networkCalls }

/-- Observable outcome of one `globalSearch` run. -/
structure SearchOutcome where
  status : Nat
  success : Bool
  items : List String
  request : Option OutboundRequest
  breakers : Breakers
  networkCalls : Nat
  deriving Repr, DecidableEq

/-- `globalSearch(req, res)` (server.js lines 102-114): 400 without the
`q` parameter; otherwise one public `callService` to item-service; a
rejection lands in the catch block as a 500. -/
def globalSearch (bs : Breakers) (reg : Registry) (q : Option String)
    (downstream : AxiosResult) : SearchOutcome :=
  match q with
  | none =>
      { status := 400, success := false, items := [], request := none,
        breakers := bs, networkCalls := 0 }
  | some qs =>
      let c := callService bs reg "item-service" ("/search?q=" ++ qs) none downstream
      match c.result with
      | Except.ok b =>
          { status := 200, success := true, items := b.data, request := c.request,
            breakers := c.breakers, networkCalls := c.networkCalls }
      | Except.error _ =>
          { status := 500, success := false, items := [], request := c.request,
            breakers := c.breakers, networkCalls := c.networkCalls }

-- Unfolding lemmas for isCircuitOpen, shared by several results below.

theorem isCircuitOpen_none (bs : Breakers) (name : String) (now : Nat)
    (hb : getBreaker bs name = none) : isCircuitOpen bs name now = (false, bs) := by
  unfold isCircuitOpen
  rw [hb]

theorem isCircuitOpen_some_stay (bs : Breakers) (name : String) (b : Breaker) (now : Nat)
    (hb : getBreaker bs name = some b)
    (h : ¬ (b.isOpen = true ∧ 30000 < now - b.lastFailure.getD 0)) :
    isCircuitOpen bs name now = (b.isOpen, bs) := by
  unfold isCircuitOpen
  rw [hb]
  exact if_neg h

theorem isCircuitOpen_some_flip (bs : Breakers) (name : String) (b : Breaker) (now : Nat)
    (hb : getBreaker bs name = some b)
    (h : b.isOpen = true ∧ 30000 < now - b.lastFailure.getD 0) :
    isCircuitOpen bs name now = (false, setBreaker bs name { b with isOpen := false }) := by
  unfold isCircuitOpen
  rw [hb]
  exact if_pos h

/-- C1: after three consecutive recordFailure calls on a target with no
intervening success, isCircuitOpen reports the circuit open, provided
the open duration (30000 ms) has not yet elapsed since the last
failure. -/
theorem three_consecutive_failures_open_circuit (bs : Breakers) (name : String)
    (t1 t2 t3 now : Nat) (h : now - t3 ≤ 30000) :
    (isCircuitOpen
      (recordFailure (recordFailure (recordFailure bs name t1) name t2) name t3)
      name now).1 = true := by
  set b0 : Breaker := (getBreaker bs name).getD freshBreaker with hb0
  have h1 : getBreaker (recordFailure bs name t1) name = some (bumpFailure b0 t1) :=
    getBreaker_recordFailure bs name t1
  have h2 : getBreaker (recordFailure (recordFailure bs name t1) name t2) name
      = some (bumpFailure (bumpFailure b0 t1) t2) := by
    rw [getBreaker_recordFailure, h1]
    rfl
  have h3 : getBreaker
      (recordFailure (recordFailure (recordFailure bs name t1) name t2) name t3) name
      = some (bumpFailure (bumpFailure (bumpFailure b0 t1) t2) t3) := by
    rw [getBreaker_recordFailure, h2]
    rfl
  have hOpen : (bumpFailure (bumpFailure (bumpFailure b0 t1) t2) t3).isOpen = true := by
    apply bumpFailure_isOpen_of_threshold
    rw [bumpFailure_failures, bumpFailure_failures]
    omega
  have hLast : (bumpFailure (bumpFailure (bumpFailure b0 t1) t2) t3).lastFailure = some t3 :=
    bumpFailure_lastFailure _ _
  have hcond : ¬ ((bumpFailure (bumpFailure (bumpFailure b0 t1) t2) t3).isOpen = true ∧
      30000 < now - (bumpFailure (bumpFailure (bumpFailure b0 t1) t2) t3).lastFailure.getD 0) := by
    rw [hLast]
    intro hc
    have := hc.2
    simp only [Option.getD_some] at this
    omega
  rw [isCircuitOpen_some_stay _ _ _ _ h3 hcond]
  exact hOpen

/-- Witness for C1 at a concrete input. -/
theorem three_consecutive_failures_open_circuit_witness :
    100 - 20 ≤ 30000 ∧
    (isCircuitOpen
      (recordFailure (recordFailure (recordFailure [] "catalog" 0) "catalog" 10) "catalog" 20)
      "catalog" 100).1 = true :=
  ⟨by decide, three_consecutive_failures_open_circuit [] "catalog" 0 10 20 100 (by decide)⟩

/-- C2: while a target's breaker is open and its open duration has not
elapsed, proxyRequest answers 503 at once, reaching neither registry
discovery nor the network. -/
theorem circuit_open_short_circuits_proxy (bs : Breakers) (reg : Registry)
    (name : String) (now : Nat) (d : AxiosResult) (b : Breaker)
    (hb : getBreaker bs name = some b) (ho : b.isOpen = true)
    (ht : now - b.lastFailure.getD 0 ≤ 30000) :
    (proxyRequest bs reg name now d).response.status = 503 ∧
    (proxyRequest bs reg name now d).discoveryAttempted = false ∧
    (proxyRequest bs reg name now d).networkCall = false := by
  have hio : isCircuitOpen bs name now = (b.isOpen, bs) :=
    isCircuitOpen_some_stay bs name b now hb (fun hc => absurd hc.2 (by omega))
  unfold proxyRequest
  rw [hio]
  simp [ho]

/-- Witness for C2 at a concrete input. -/
theorem circuit_open_short_circuits_proxy_witness :
    getBreaker [("user-service", Breaker.mk 3 true (some 5))] "user-service"
      = some (Breaker.mk 3 true (some 5)) ∧
    ((proxyRequest [("user-service", Breaker.mk 3 true (some 5))] []
        "user-service" 100 AxiosResult.transportError).response.status = 503 ∧
      (proxyRequest [("user-service", Breaker.mk 3 true (some 5))] []
        "user-service" 100 AxiosResult.transportError).discoveryAttempted = false ∧
      (proxyRequest [("user-service", Breaker.mk 3 true (some 5))] []
        "user-service" 100 AxiosResult.transportError).networkCall = false) :=
  ⟨by decide,
    circuit_open_short_circuits_proxy [("user-service", Breaker.mk 3 true (some 5))] []
      "user-service" 100 AxiosResult.transportError (Breaker.mk 3 true (some 5))
      (by decide) (by decide) (by decide)⟩

/-- C3 counterexample: a breaker that opened with its last failure at
time 0 still rejects the allow check at exactly 0 + 30000, whereas the
claim says the first check at or after T + openDuration is permitted. -/
theorem allow_at_exact_open_duration_counterexample :
    (isCircuitOpen [("list-service", Breaker.mk 3 true (some 0))]
      "list-service" 30000).1 = true := by decide

/-- C3 amended: with the breaker open and its last failure at T, the
allow check rejects exactly when now ≤ T + 30000 (so the first permitted
check is strictly after T + openDuration, not at it), and rejecting
checks leave the breaker table unchanged, so the outcome is independent
of how many rejected checks happened in between. -/
theorem open_breaker_allow_iff_strictly_after_timeout (bs : Breakers) (name : String)
    (b : Breaker) (T now : Nat) (hb : getBreaker bs name = some b)
    (ho : b.isOpen = true) (hl : b.lastFailure = some T) :
    (isCircuitOpen bs name now).1 = decide (now ≤ T + 30000) ∧
    (isCircuitOpen bs name now).2 =
      (if now ≤ T + 30000 then bs else setBreaker bs name { b with isOpen := false }) := by
  have hT : b.lastFailure.getD 0 = T := by rw [hl]; rfl
  by_cases hle : now ≤ T + 30000
  · have hio : isCircuitOpen bs name now = (b.isOpen, bs) :=
      isCircuitOpen_some_stay bs name b now hb
        (fun hc => absurd hc.2 (by rw [hT]; omega))
    rw [hio]
    simp [ho, hle]
  · have hio : isCircuitOpen bs name now =
        (false, setBreaker bs name { b with isOpen := false }) :=
      isCircuitOpen_some_flip bs name b now hb ⟨ho, by rw [hT]; omega⟩
    rw [hio]
    simp [hle]

/-- Witness for the amended C3 at a concrete input. -/
theorem open_breaker_allow_iff_strictly_after_timeout_witness :
    (isCircuitOpen [("list-service", Breaker.mk 3 true (some 7))]
        "list-service" 30007).1 = decide (30007 ≤ 7 + 30000) ∧
    (isCircuitOpen [("list-service", Breaker.mk 3 true (some 7))]
        "list-service" 30007).2 =
      (if 30007 ≤ 7 + 30000 then [("list-service", Breaker.mk 3 true (some 7))]
        else setBreaker [("list-service", Breaker.mk 3 true (some 7))]
          "list-service" { Breaker.mk 3 true (some 7) with isOpen := false }) :=
  open_breaker_allow_iff_strictly_after_timeout
    [("list-service", Breaker.mk 3 true (some 7))] "list-service"
    (Breaker.mk 3 true (some 7)) 7 30007 (by decide) (by decide) (by decide)

/-- C4 counterexample: after the open timeout has elapsed (last failure
at 0, checks at 40000 and 41000), the first allow check is permitted and
a second allow check before any outcome is recorded is permitted too,
whereas the claim says only one trial call may pass. -/
theorem half_open_single_trial_counterexample :
    (isCircuitOpen [("user-service", Breaker.mk 3 true (some 0))]
      "user-service" 40000).1 = false ∧
    (isCircuitOpen
      (isCircuitOpen [("user-service", Breaker.mk 3 true (some 0))]
        "user-service" 40000).2
      "user-service" 41000).1 = false := by decide

/-- C4 amended: once the open timeout elapses, the first allow check
permits the call and rewrites the breaker to not-open while keeping the
failure count, so every further allow check before any outcome is
recorded is also permitted — the code does not limit the half-open phase
to a single trial call (a single recorded failure does re-open the
breaker, since the count is retained at the threshold). -/
theorem half_open_admits_all_checks_until_outcome (bs : Breakers) (name : String)
    (b : Breaker) (T now now2 : Nat) (hb : getBreaker bs name = some b)
    (ho : b.isOpen = true) (hl : b.lastFailure = some T) (h : T + 30000 < now) :
    (isCircuitOpen bs name now).1 = false ∧
    getBreaker (isCircuitOpen bs name now).2 name = some { b with isOpen := false } ∧
    (isCircuitOpen (isCircuitOpen bs name now).2 name now2).1 = false := by
  have hT : b.lastFailure.getD 0 = T := by rw [hl]; rfl
  have hflip : isCircuitOpen bs name now =
      (false, setBreaker bs name { b with isOpen := false }) :=
    isCircuitOpen_some_flip bs name b now hb ⟨ho, by rw [hT]; omega⟩
  have hb2 : getBreaker (isCircuitOpen bs name now).2 name
      = some { b with isOpen := false } := by
    rw [hflip]
    exact getBreaker_setBreaker_self bs name _
  refine ⟨by rw [hflip], hb2, ?_⟩
  have hstay : isCircuitOpen (isCircuitOpen bs name now).2 name now2 =
      (({ b with isOpen := false } : Breaker).isOpen, (isCircuitOpen bs name now).2) :=
    isCircuitOpen_some_stay _ name { b with isOpen := false } now2 hb2
      (fun hc => by simp at hc)
  rw [hstay]

/-- Witness for the amended C4 at a concrete input. -/
theorem half_open_admits_all_checks_until_outcome_witness :
    0 + 30000 < 40000 ∧
    ((isCircuitOpen [("user-service", Breaker.mk 3 true (some 0))]
        "user-service" 40000).1 = false ∧
      getBreaker (isCircuitOpen [("user-service", Breaker.mk 3 true (some 0))]
        "user-service" 40000).2 "user-service"
        = some { Breaker.mk 3 true (some 0) with isOpen := false } ∧
      (isCircuitOpen
        (isCircuitOpen [("user-service", Breaker.mk 3 true (some 0))]
          "user-service" 40000).2
        "user-service" 41000).1 = false) :=
  ⟨by decide,
    half_open_admits_all_checks_until_outcome
      [("user-service", Breaker.mk 3 true (some 0))] "user-service"
      (Breaker.mk 3 true (some 0)) 0 40000 41000 (by decide) (by decide)
      (by decide) (by decide)⟩

/-- One gateway-side breaker operation, tagged with the timestamp at
which it runs: an allow check (`isCircuitOpen`), a recorded failure
(`recordFailure`) or a reset on success (`resetCircuitBreaker`). -/
inductive BreakerOp where
  | check (now : Nat)
  | fail (now : Nat)
  | reset
  deriving Repr, DecidableEq

/-- Apply one named breaker operation to the breaker table. -/
def applyOp (bs : Breakers) : String × BreakerOp → Breakers
  | (name, BreakerOp.check now) => (isCircuitOpen bs name now).2
  | (name, BreakerOp.fail now) => recordFailure bs name now
  | (name, BreakerOp.reset) => resetCircuitBreaker bs name

/-- Run a sequence of named breaker operations from a starting table. -/
def runOps (bs : Breakers) : List (String × BreakerOp) → Breakers
  | [] => bs
  | op :: rest => runOps (applyOp bs op) rest

/-- The spec invariant: an open breaker always carries at least the
failure threshold (3) of consecutive failures. -/
def BreakerInv (bs : Breakers) : Prop :=
  ∀ name b, getBreaker bs name = some b → b.isOpen = true → 3 ≤ b.failures

theorem breakerInv_set (bs : Breakers) (name : String) (b : Breaker)
    (hinv : BreakerInv bs) (hb : b.isOpen = true → 3 ≤ b.failures) :
    BreakerInv (setBreaker bs name b) := by
  intro m bm hm ho
  by_cases hmn : m = name
  · subst hmn
    rw [getBreaker_setBreaker_self] at hm
    cases hm
    exact hb ho
  · rw [getBreaker_setBreaker_other bs name m b hmn] at hm
    exact hinv m bm hm ho

theorem breakerInv_recordFailure (bs : Breakers) (name : String) (now : Nat)
    (hinv : BreakerInv bs) : BreakerInv (recordFailure bs name now) := by
  unfold recordFailure
  apply breakerInv_set bs name _ hinv
  intro ho
  rw [bumpFailure_failures]
  by_cases h3 : 3 ≤ ((getBreaker bs name).getD freshBreaker).failures + 1
  · exact h3
  · exfalso
    have hiso : ((getBreaker bs name).getD freshBreaker).isOpen = true := by
      unfold bumpFailure at ho
      simp only [h3, if_false] at ho
      exact ho
    cases hg : getBreaker bs name with
    | none =>
        rw [hg] at hiso
        simp [freshBreaker] at hiso
    | some o =>
        rw [hg] at hiso h3
        simp only [Option.getD_some] at hiso h3
        exact h3 (by have := hinv name o hg hiso; omega)

theorem breakerInv_isCircuitOpen (bs : Breakers) (name : String) (now : Nat)
    (hinv : BreakerInv bs) : BreakerInv (isCircuitOpen bs name now).2 := by
  cases hg : getBreaker bs name with
  | none => rw [isCircuitOpen_none bs name now hg]; exact hinv
  | some b =>
      by_cases hc : b.isOpen = true ∧ 30000 < now - b.lastFailure.getD 0
      · rw [isCircuitOpen_some_flip bs name b now hg hc]
        apply breakerInv_set bs name _ hinv
        intro ho
        simp at ho
      · rw [isCircuitOpen_some_stay bs name b now hg hc]
        exact hinv

theorem breakerInv_resetCircuitBreaker (bs : Breakers) (name : String)
    (hinv : BreakerInv bs) : BreakerInv (resetCircuitBreaker bs name) := by
  unfold resetCircuitBreaker
  cases hg : getBreaker bs name with
  | none => exact hinv
  | some b =>
      apply breakerInv_set bs name _ hinv
      intro ho
      simp at ho

theorem breakerInv_applyOp (bs : Breakers) (op : String × BreakerOp)
    (hinv : BreakerInv bs) : BreakerInv (applyOp bs op) := by
  obtain ⟨name, o⟩ := op
  cases o with
  | check now => exact breakerInv_isCircuitOpen bs name now hinv
  | fail now => exact breakerInv_recordFailure bs name now hinv
  | reset => exact breakerInv_resetCircuitBreaker bs name hinv

theorem breakerInv_runOps (bs : Breakers) (ops : List (String × BreakerOp))
    (hinv : BreakerInv bs) : BreakerInv (runOps bs ops) := by
  induction ops generalizing bs with
  | nil => exact hinv
  | cons op rest ih => exact ih (applyOp bs op) (breakerInv_applyOp bs op hinv)

/-- C5: every breaker table reachable from the gateway's initial empty
table by any sequence of isCircuitOpen, recordFailure and
resetCircuitBreaker operations satisfies the invariant that an open
breaker has at least 3 consecutive failures. -/
theorem open_implies_threshold_invariant (ops : List (String × BreakerOp)) :
    BreakerInv (runOps [] ops) := by
  apply breakerInv_runOps
  intro name b hb
  simp [getBreaker] at hb

/-- Witness for C5 on a concrete operation sequence. -/
theorem open_implies_threshold_invariant_witness :
    BreakerInv (runOps []
      [("catalog", BreakerOp.fail 1), ("catalog", BreakerOp.fail 2),
       ("catalog", BreakerOp.check 3), ("catalog", BreakerOp.reset)]) :=
  open_implies_threshold_invariant
    [("catalog", BreakerOp.fail 1), ("catalog", BreakerOp.fail 2),
     ("catalog", BreakerOp.check 3), ("catalog", BreakerOp.reset)]

/-- C6 counterexample: a downstream 404 whose body carries a data array
and a further field comes back from proxyRequest with the original
status but not the original body — the gateway rewraps it as
`{ success: false, message }`, dropping every other field. -/
theorem downstream_body_not_preserved_counterexample :
    (proxyRequest [] [("item-service", "http://127.0.0.1:3003")] "item-service" 0
      (AxiosResult.httpError 404
        (Body.mk false "Item não encontrado" ["sugestão"] (some "code=E404")))).response.status
      = 404 ∧
    ¬ (proxyRequest [] [("item-service", "http://127.0.0.1:3003")] "item-service" 0
      (AxiosResult.httpError 404
        (Body.mk false "Item não encontrado" ["sugestão"] (some "code=E404")))).response.body
      = Body.mk false "Item não encontrado" ["sugestão"] (some "code=E404") := by decide

/-- C6 amended: on a non-2xx downstream response, proxyRequest records a
breaker failure for the target and answers with the downstream's original
status code and a rewrapped `{ success: false, message }` body carrying
only the `message` field of the downstream body, not the original body. -/
theorem non2xx_records_failure_and_rewraps_body (bs : Breakers) (reg : Registry)
    (name url : String) (now st : Nat) (b : Body)
    (hopen : (isCircuitOpen bs name now).1 = false)
    (hreg : discover reg name = some url) :
    (proxyRequest bs reg name now (AxiosResult.httpError st b)).response.status = st ∧
    (proxyRequest bs reg name now (AxiosResult.httpError st b)).response.body
      = errBody b.message ∧
    (proxyRequest bs reg name now (AxiosResult.httpError st b)).breakers
      = recordFailure (isCircuitOpen bs name now).2 name now := by
  simp [proxyRequest, hopen, hreg]

/-- Witness for the amended C6 at a concrete input. -/
theorem non2xx_records_failure_and_rewraps_body_witness :
    (isCircuitOpen [] "item-service" 0).1 = false ∧
    ((proxyRequest [] [("item-service", "http://127.0.0.1:3003")] "item-service" 0
        (AxiosResult.httpError 404 (Body.mk false "erro" [] none))).response.status = 404 ∧
      (proxyRequest [] [("item-service", "http://127.0.0.1:3003")] "item-service" 0
        (AxiosResult.httpError 404 (Body.mk false "erro" [] none))).response.body
        = errBody (Body.mk false "erro" [] none).message ∧
      (proxyRequest [] [("item-service", "http://127.0.0.1:3003")] "item-service" 0
        (AxiosResult.httpError 404 (Body.mk false "erro" [] none))).breakers
        = recordFailure (isCircuitOpen [] "item-service" 0).2 "item-service" 0) :=
  ⟨by decide,
    non2xx_records_failure_and_rewraps_body [] [("item-service", "http://127.0.0.1:3003")]
      "item-service" "http://127.0.0.1:3003" 0 404 (Body.mk false "erro" [] none)
      (by decide) (by decide)⟩

/-- C7: on an authenticated dashboard request where one constituent
sub-call settles rejected and the other settles fulfilled — in either
direction, `itemFailed = true` for item-service failing, `itemFailed =
false` for list-service failing — the aggregate response is an overall
200 success carrying the successful branch's data and an empty
placeholder for the failed branch. -/
theorem partial_failure_keeps_dashboard_success (bs : Breakers) (reg : Registry)
    (a : String) (dl di : AxiosResult) (b : Body) (e : String) (itemFailed : Bool)
    (hl : (getDashboard bs reg (some a) dl di).listsResult
      = some (if itemFailed then Except.ok b else Except.error e))
    (hi : (getDashboard bs reg (some a) dl di).itemsResult
      = some (if itemFailed then Except.error e else Except.ok b)) :
    (getDashboard bs reg (some a) dl di).status = 200 ∧
    (getDashboard bs reg (some a) dl di).success = true ∧
    (getDashboard bs reg (some a) dl di).recentLists
      = (if itemFailed then b.data else []) ∧
    (getDashboard bs reg (some a) dl di).catalogItems
      = (if itemFailed then [] else b.data) := by
  cases itemFailed with
  | true =>
      have hl2 : (callService bs reg "list-service" "/lists?limit=5" (some a) dl).result
          = Except.ok b := by
        simpa [getDashboard] using hl
      have hi2 : (callService
          (callService bs reg "list-service" "/lists?limit=5" (some a) dl).breakers
          reg "item-service" "/items?limit=5" none di).result = Except.error e := by
        simpa [getDashboard] using hi
      refine ⟨by simp [getDashboard], by simp [getDashboard], ?_, ?_⟩
      · simp [getDashboard, hl2]
      · simp [getDashboard, hi2]
  | false =>
      have hl2 : (callService bs reg "list-service" "/lists?limit=5" (some a) dl).result
          = Except.error e := by
        simpa [getDashboard] using hl
      have hi2 : (callService
          (callService bs reg "list-service" "/lists?limit=5" (some a) dl).breakers
          reg "item-service" "/items?limit=5" none di).result = Except.ok b := by
        simpa [getDashboard] using hi
      refine ⟨by simp [getDashboard], by simp [getDashboard], ?_, ?_⟩
      · simp [getDashboard, hl2]
      · simp [getDashboard, hi2]

/-- Witness for C7, exercising both directions.  First conjunct block:
list-service registered and answering, item-service never registered, so
the item branch rejects with NotRegistered.  Second conjunct block: the
mirror image, item-service registered and answering while list-service
is never registered. -/
theorem partial_failure_keeps_dashboard_success_witness :
    ((getDashboard [] [("list-service", "http://127.0.0.1:3002")] (some "Bearer tok")
        (AxiosResult.ok 200 (Body.mk true "" ["Compras da Semana"] none))
        (AxiosResult.ok 200 (Body.mk true "" ["Arroz"] none))).listsResult
      = some (if true then Except.ok (Body.mk true "" ["Compras da Semana"] none)
          else Except.error "NotRegistered") ∧
      ((getDashboard [] [("list-service", "http://127.0.0.1:3002")] (some "Bearer tok")
        (AxiosResult.ok 200 (Body.mk true "" ["Compras da Semana"] none))
        (AxiosResult.ok 200 (Body.mk true "" ["Arroz"] none))).status = 200 ∧
      (getDashboard [] [("list-service", "http://127.0.0.1:3002")] (some "Bearer tok")
        (AxiosResult.ok 200 (Body.mk true "" ["Compras da Semana"] none))
        (AxiosResult.ok 200 (Body.mk true "" ["Arroz"] none))).success = true ∧
      (getDashboard [] [("list-service", "http://127.0.0.1:3002")] (some "Bearer tok")
        (AxiosResult.ok 200 (Body.mk true "" ["Compras da Semana"] none))
        (AxiosResult.ok 200 (Body.mk true "" ["Arroz"] none))).recentLists
        = (if true then (Body.mk true "" ["Compras da Semana"] none).data else []) ∧
      (getDashboard [] [("list-service", "http://127.0.0.1:3002")] (some "Bearer tok")
        (AxiosResult.ok 200 (Body.mk true "" ["Compras da Semana"] none))
        (AxiosResult.ok 200 (Body.mk true "" ["Arroz"] none))).catalogItems
        = (if true then [] else (Body.mk true "" ["Compras da Semana"] none).data))) ∧
    ((getDashboard [] [("item-service", "http://127.0.0.1:3003")] (some "Bearer tok")
        (AxiosResult.ok 200 (Body.mk true "" ["Compras da Semana"] none))
        (AxiosResult.ok 200 (Body.mk true "" ["Arroz"] none))).itemsResult
      = some (if false then Except.error "NotRegistered"
          else Except.ok (Body.mk true "" ["Arroz"] none)) ∧
      ((getDashboard [] [("item-service", "http://127.0.0.1:3003")] (some "Bearer tok")
        (AxiosResult.ok 200 (Body.mk true "" ["Compras da Semana"] none))
        (AxiosResult.ok 200 (Body.mk true "" ["Arroz"] none))).status = 200 ∧
      (getDashboard [] [("item-service", "http://127.0.0.1:3003")] (some "Bearer tok")
        (AxiosResult.ok 200 (Body.mk true "" ["Compras da Semana"] none))
        (AxiosResult.ok 200 (Body.mk true "" ["Arroz"] none))).success = true ∧
      (getDashboard [] [("item-service", "http://127.0.0.1:3003")] (some "Bearer tok")
        (AxiosResult.ok 200 (Body.mk true "" ["Compras da Semana"] none))
        (AxiosResult.ok 200 (Body.mk true "" ["Arroz"] none))).recentLists
        = (if false then (Body.mk true "" ["Arroz"] none).data else []) ∧
      (getDashboard [] [("item-service", "http://127.0.0.1:3003")] (some "Bearer tok")
        (AxiosResult.ok 200 (Body.mk true "" ["Compras da Semana"] none))
        (AxiosResult.ok 200 (Body.mk true "" ["Arroz"] none))).catalogItems
        = (if false then [] else (Body.mk true "" ["Arroz"] none).data))) :=
  ⟨⟨by decide,
    partial_failure_keeps_dashboard_success [] [("list-service", "http://127.0.0.1:3002")]
      "Bearer tok" (AxiosResult.ok 200 (Body.mk true "" ["Compras da Semana"] none))
      (AxiosResult.ok 200 (Body.mk true "" ["Arroz"] none))
      (Body.mk true "" ["Compras da Semana"] none) "NotRegistered" true
      (by decide) (by decide)⟩,
   ⟨by decide,
    partial_failure_keeps_dashboard_success [] [("item-service", "http://127.0.0.1:3003")]
      "Bearer tok" (AxiosResult.ok 200 (Body.mk true "" ["Compras da Semana"] none))
      (AxiosResult.ok 200 (Body.mk true "" ["Arroz"] none))
      (Body.mk true "" ["Arroz"] none) "NotRegistered" false
      (by decide) (by decide)⟩⟩

-- callService facts shared by the aggregate-endpoint results below.

theorem callService_breakers (bs : Breakers) (reg : Registry) (name path : String)
    (auth : Option String) (d : AxiosResult) :
    (callService bs reg name path auth d).breakers = bs := by
  cases hg : discover reg name <;> cases d <;> simp [callService, hg]

theorem callService_request (bs : Breakers) (reg : Registry) (name path : String)
    (auth : Option String) (d : AxiosResult) :
    (callService bs reg name path auth d).request
      = (discover reg name).map (fun url => OutboundRequest.mk (url ++ path) auth) := by
  cases hg : discover reg name <;> cases d <;> simp [callService, hg]

theorem callService_networkCalls (bs : Breakers) (reg : Registry) (name path : String)
    (auth : Option String) (d : AxiosResult) (h : (discover reg name).isSome = true) :
    (callService bs reg name path auth d).networkCalls = 1 := by
  cases hg : discover reg name with
  | none => rw [hg] at h; simp at h
  | some url => cases d <;> simp [callService, hg]

/-- C8 counterexample: with the item-service breaker open (failures 3,
last failure at 0, check at 1000 is within the open window), the global
search still issues its outbound call, and a transport-error outcome
leaves the breaker table exactly as it was — the aggregate sub-call is
neither gated by the breaker nor fed back into it. -/
theorem aggregate_bypasses_breaker_counterexample :
    (isCircuitOpen [("item-service", Breaker.mk 3 true (some 0))] "item-service" 1000).1
      = true ∧
    (globalSearch [("item-service", Breaker.mk 3 true (some 0))]
      [("item-service", "http://127.0.0.1:3003")] (some "arroz")
      AxiosResult.transportError).networkCalls = 1 ∧
    (globalSearch [("item-service", Breaker.mk 3 true (some 0))]
      [("item-service", "http://127.0.0.1:3003")] (some "arroz")
      AxiosResult.transportError).breakers
      = [("item-service", Breaker.mk 3 true (some 0))] := by decide

/-- C8 amended: the sub-calls the aggregate endpoints issue through
callService are not gated by the circuit breaker and never feed their
outcome back: callService leaves the breaker table untouched and, once
discovery succeeds, always issues the outbound call, whatever the
breaker state; consequently getDashboard and globalSearch return the
breaker table unchanged. -/
theorem aggregate_subcalls_bypass_breaker (bs : Breakers) (reg : Registry)
    (name path : String) (auth : Option String) (q : Option String)
    (ah : Option String) (d dl di d2 : AxiosResult)
    (h : (discover reg name).isSome = true) :
    (callService bs reg name path auth d).breakers = bs ∧
    (callService bs reg name path auth d).networkCalls = 1 ∧
    (getDashboard bs reg ah dl di).breakers = bs ∧
    (globalSearch bs reg q d2).breakers = bs := by
  refine ⟨callService_breakers bs reg name path auth d,
    callService_networkCalls bs reg name path auth d h, ?_, ?_⟩
  · cases ah with
    | none => simp [getDashboard]
    | some a => simp [getDashboard, callService_breakers]
  · cases q with
    | none => simp [globalSearch]
    | some qs =>
        cases hr : (callService bs reg "item-service" ("/search?q=" ++ qs) none d2).result <;>
          simp [globalSearch, hr, callService_breakers]

/-- Witness for the amended C8 at a concrete input. -/
theorem aggregate_subcalls_bypass_breaker_witness :
    (discover [("item-service", "http://127.0.0.1:3003")] "item-service").isSome = true ∧
    ((callService [("item-service", Breaker.mk 3 true (some 0))]
        [("item-service", "http://127.0.0.1:3003")] "item-service" "/search?q=arroz" none
        AxiosResult.transportError).breakers
        = [("item-service", Breaker.mk 3 true (some 0))] ∧
      (callService [("item-service", Breaker.mk 3 true (some 0))]
        [("item-service", "http://127.0.0.1:3003")] "item-service" "/search?q=arroz" none
        AxiosResult.transportError).networkCalls = 1 ∧
      (getDashboard [("item-service", Breaker.mk 3 true (some 0))]
        [("item-service", "http://127.0.0.1:3003")] (some "Bearer tok")
        AxiosResult.transportError AxiosResult.transportError).breakers
        = [("item-service", Breaker.mk 3 true (some 0))] ∧
      (globalSearch [("item-service", Breaker.mk 3 true (some 0))]
        [("item-service", "http://127.0.0.1:3003")] (some "arroz")
        AxiosResult.transportError).breakers
        = [("item-service", Breaker.mk 3 true (some 0))]) :=
  ⟨by decide,
    aggregate_subcalls_bypass_breaker [("item-service", Breaker.mk 3 true (some 0))]
      [("item-service", "http://127.0.0.1:3003")] "item-service" "/search?q=arroz" none
      (some "arroz") (some "Bearer tok") AxiosResult.transportError
      AxiosResult.transportError AxiosResult.transportError AxiosResult.transportError
      (by decide)⟩

/-- C9: the item-service request of an authenticated dashboard run is
the same whatever the caller's credential (and carries no Authorization
header), while the list-service request carries exactly the caller's
credential. -/
theorem dashboard_credential_isolation (bs1 bs2 : Breakers) (reg : Registry)
    (a1 a2 : String) (l1 i1 l2 i2 : AxiosResult) :
    (getDashboard bs1 reg (some a1) l1 i1).itemRequest
      = (getDashboard bs2 reg (some a2) l2 i2).itemRequest ∧
    (getDashboard bs1 reg (some a1) l1 i1).itemRequest
      = (discover reg "item-service").map
          (fun url => OutboundRequest.mk (url ++ "/items?limit=5") none) ∧
    (getDashboard bs1 reg (some a1) l1 i1).listRequest
      = (discover reg "list-service").map
          (fun url => OutboundRequest.mk (url ++ "/lists?limit=5") (some a1)) := by
  refine ⟨?_, ?_, ?_⟩ <;> simp [getDashboard, callService_request]

/-- C10: proxying to a never-registered service records the discovery
failure on that service's breaker, three such requests open the breaker,
and a fourth request within the open window is rejected by the breaker
before discovery is even attempted. -/
theorem unregistered_service_trips_breaker (reg : Registry) (name : String)
    (t1 t2 t3 now : Nat) (d1 d2 d3 d4 : AxiosResult)
    (hreg : discover reg name = none) (hnow : now - t3 ≤ 30000) :
    getBreaker (proxyRequest (proxyRequest (proxyRequest [] reg name t1 d1).breakers
        reg name t2 d2).breakers reg name t3 d3).breakers name
      = some (Breaker.mk 3 true (some t3)) ∧
    (proxyRequest (proxyRequest (proxyRequest (proxyRequest [] reg name t1 d1).breakers
        reg name t2 d2).breakers reg name t3 d3).breakers reg name now d4).response.status
      = 503 ∧
    (proxyRequest (proxyRequest (proxyRequest (proxyRequest [] reg name t1 d1).breakers
        reg name t2 d2).breakers reg name t3 d3).breakers reg name now d4).discoveryAttempted
      = false ∧
    (proxyRequest (proxyRequest (proxyRequest (proxyRequest [] reg name t1 d1).breakers
        reg name t2 d2).breakers reg name t3 d3).breakers reg name now d4).networkCall
      = false := by
  have e1 : (proxyRequest [] reg name t1 d1).breakers
      = [(name, Breaker.mk 1 false (some t1))] := by
    have h0 : isCircuitOpen [] name t1 = (false, []) := isCircuitOpen_none [] name t1 rfl
    simp [proxyRequest, h0, hreg, recordFailure, getBreaker, setBreaker, bumpFailure,
      freshBreaker]
  have hg1 : getBreaker [(name, Breaker.mk 1 false (some t1))] name
      = some (Breaker.mk 1 false (some t1)) := by simp [getBreaker]
  have e2 : (proxyRequest [(name, Breaker.mk 1 false (some t1))] reg name t2 d2).breakers
      = [(name, Breaker.mk 2 false (some t2))] := by
    have h0 : isCircuitOpen [(name, Breaker.mk 1 false (some t1))] name t2
        = (false, [(name, Breaker.mk 1 false (some t1))]) :=
      isCircuitOpen_some_stay _ _ _ _ hg1 (by simp)
    simp [proxyRequest, h0, hreg, recordFailure, hg1, setBreaker, bumpFailure]
  have hg2 : getBreaker [(name, Breaker.mk 2 false (some t2))] name
      = some (Breaker.mk 2 false (some t2)) := by simp [getBreaker]
  have e3 : (proxyRequest [(name, Breaker.mk 2 false (some t2))] reg name t3 d3).breakers
      = [(name, Breaker.mk 3 true (some t3))] := by
    have h0 : isCircuitOpen [(name, Breaker.mk 2 false (some t2))] name t3
        = (false, [(name, Breaker.mk 2 false (some t2))]) :=
      isCircuitOpen_some_stay _ _ _ _ hg2 (by simp)
    simp [proxyRequest, h0, hreg, recordFailure, hg2, setBreaker, bumpFailure]
  have hg3 : getBreaker [(name, Breaker.mk 3 true (some t3))] name
      = some (Breaker.mk 3 true (some t3)) := by simp [getBreaker]
  have h4 : isCircuitOpen [(name, Breaker.mk 3 true (some t3))] name now
      = (true, [(name, Breaker.mk 3 true (some t3))]) :=
    isCircuitOpen_some_stay _ _ _ _ hg3
      (fun hc => absurd hc.2 (by simp only [Option.getD_some]; omega))
  rw [e1, e2, e3]
  refine ⟨hg3, ?_, ?_, ?_⟩ <;> simp [proxyRequest, h4]

/-- Witness for C10 at a concrete input: an empty registry and the
never-registered name "ghost". -/
theorem unregistered_service_trips_breaker_witness :
    discover [] "ghost" = none ∧
    (getBreaker (proxyRequest (proxyRequest (proxyRequest [] [] "ghost" 0
          AxiosResult.transportError).breakers
        [] "ghost" 1 AxiosResult.transportError).breakers [] "ghost" 2
          AxiosResult.transportError).breakers "ghost"
      = some (Breaker.mk 3 true (some 2)) ∧
    (proxyRequest (proxyRequest (proxyRequest (proxyRequest [] [] "ghost" 0
          AxiosResult.transportError).breakers
        [] "ghost" 1 AxiosResult.transportError).breakers [] "ghost" 2
          AxiosResult.transportError).breakers [] "ghost" 1000
          AxiosResult.transportError).response.status = 503 ∧
    (proxyRequest (proxyRequest (proxyRequest (proxyRequest [] [] "ghost" 0
          AxiosResult.transportError).breakers
        [] "ghost" 1 AxiosResult.transportError).breakers [] "ghost" 2
          AxiosResult.transportError).breakers [] "ghost" 1000
          AxiosResult.transportError).discoveryAttempted = false ∧
    (proxyRequest (proxyRequest (proxyRequest (proxyRequest [] [] "ghost" 0
          AxiosResult.transportError).breakers
        [] "ghost" 1 AxiosResult.transportError).breakers [] "ghost" 2
          AxiosResult.transportError).breakers [] "ghost" 1000
          AxiosResult.transportError).networkCall = false) :=
  ⟨rfl,
    unregistered_service_trips_breaker [] "ghost" 0 1 2 1000
      AxiosResult.transportError AxiosResult.transportError AxiosResult.transportError
      AxiosResult.transportError rfl (by decide)⟩

end Gateway
